import Mathlib

/-!
Shallow embedding of the trust scoring pipeline of
`src/DataExtraction/fetch_hathor_nft.py` (function `fetch_hathor_nft`).

The Source Resolver (HTTP fetch / HTML parsing, lines 12-58 of the file)
is out of scope; it supplies a raw token record.  The scoring engine
(lines 60-116) is embedded faithfully below: Python ints become `Int`
(or `Nat` where the source value is a length), `datetime` values become
a `Date` triple compared lexicographically, Python string slices are
modelled with explicit Python slice-index semantics, and the one
statement that can raise (`name.strip()` on `None`, line 62) makes the
whole function return `Except Unit TrustReport`.
-/

namespace HathorNFT

/-- A calendar date, the part of a Python `datetime` the scoring engine
reads (`min` over dates compares year, then month, then day; parsed
transaction dates have zero time-of-day). -/
structure Date where
  year : Nat
  month : Nat
  day : Nat
deriving DecidableEq, Repr

/-- Strict lexicographic comparison of dates, as Python `datetime < datetime`
restricted to dates with equal time-of-day. -/
def Date.ltb (a b : Date) : Bool :=
  a.year < b.year ||
    (a.year == b.year &&
      (a.month < b.month || (a.month == b.month && a.day < b.day)))

/-- Non-strict lexicographic comparison of dates. -/
def Date.leb (a b : Date) : Bool :=
  a.year < b.year ||
    (a.year == b.year &&
      (a.month < b.month || (a.month == b.month && a.day ≤ b.day)))

/-- Python `min(tx_dates)` on a non-empty list: keep the first element,
replace it only on strict decrease (lines 69-70). -/
def minDate (d : Date) (ds : List Date) : Date :=
  ds.foldl (fun m x => if Date.ltb x m then x else m) d

/-- Line 69-72: `first_tx_date = min(tx_dates) if tx_dates else datetime.today()`. -/
def firstTxDate (today : Date) (ds : List Date) : Date :=
  match ds with
  | [] => today
  | d :: rest => minDate d rest

/-- Line 74: `age_months = max(1, (today.year - first.year) * 12 + today.month - first.month)`. -/
def age_months (today first : Date) : Int :=
  max 1 (((today.year : Int) - first.year) * 12 + today.month - first.month)

/-- Line 75: `age_points = min(age_months, 25)`. -/
def age_points (today first : Date) : Int :=
  min (age_months today first) 25

/-- Line 76: `tx_points = min(2 * transactionsCount, 25)`. -/
def tx_points (n : Nat) : Int :=
  min (2 * (n : Int)) 25

/-- Line 60: `verified = not canMint and not canMelt`. -/
def verifiedOf (canMint canMelt : Bool) : Bool :=
  !canMint && !canMelt

/-- Line 77: `immutability_points = 25 if verified else (12 if canMint != canMelt else 0)`. -/
def immutability_points (canMint canMelt : Bool) : Int :=
  if verifiedOf canMint canMelt then 25 else if canMint != canMelt then 12 else 0

/-- Line 78: `score = min(100, 50 + age_points + tx_points + immutability_points)`. -/
def scoreOf (agePts txPts immPts : Int) : Int :=
  min 100 (50 + agePts + txPts + immPts)

/-- Python slice-index normalization: a negative index counts from the
end (clamped below at 0), a non-negative one is clamped above at the
length. -/
def pyIdx (len : Nat) (i : Int) : Nat :=
  if i < 0 then ((len : Int) + i).toNat else min i.toNat len

/-- Python `s[lo:hi]` (step 1) on a string. -/
def pySlice (s : String) (lo hi : Int) : String :=
  ⟨(s.data.take (pyIdx s.data.length hi)).drop (pyIdx s.data.length lo)⟩

/-- Line 61: `token_id = f"{uid[:8]}...{uid[-8:]}"`. -/
def token_id (uid : String) : String :=
  pySlice uid 0 8 ++ "..." ++ pySlice uid (-8) uid.data.length

/-- Python `str.strip()`: drop leading and trailing whitespace. -/
def pyStrip (l : List Char) : List Char :=
  ((l.dropWhile Char.isWhitespace).reverse.dropWhile Char.isWhitespace).reverse

/-- Line 62 for a present (non-`None`) name:
`name.split("#")[0].strip() if name and '#' in name else name.strip()`
(`split("#")[0]` is the prefix of the characters before the first `#`). -/
def collectionOfName (name : String) : String :=
  if !name.data.isEmpty && name.data.contains '#' then
    ⟨pyStrip (name.data.takeWhile fun c => c ≠ '#')⟩
  else
    ⟨pyStrip name.data⟩

/-- Zero-pad a numeral to two digits (`%m`, `%d`). -/
def pad2 (n : Nat) : String :=
  if n < 10 then "0" ++ toString n else toString n

/-- Zero-pad a numeral to four digits (`%Y`). -/
def pad4 (n : Nat) : String :=
  if n < 10 then "000" ++ toString n
  else if n < 100 then "00" ++ toString n
  else if n < 1000 then "0" ++ toString n
  else toString n

/-- `strftime("%Y-%m")` on a (year, month) pair. -/
def fmtYM (ym : Nat × Nat) : String :=
  pad4 ym.1 ++ "-" ++ pad2 ym.2

/-- `strftime("%Y-%m-%d")` on a date (line 66). -/
def fmtYMD (d : Date) : String :=
  pad4 d.year ++ "-" ++ pad2 d.month ++ "-" ++ pad2 d.day

/-- Calendar year-month of `d + relativedelta(months=i)` (line 89); the
day, which relativedelta may clamp, is dropped by `%Y-%m`. -/
def addMonthsYM (d : Date) (i : Nat) : Nat × Nat :=
  let t := (d.month - 1) + i
  (d.year + t / 12, t % 12 + 1)

/-- One point of the trend list built on lines 88-91. -/
structure TrendPoint where
  date : String
  score : Int
deriving DecidableEq, Repr

/-- Lines 88-91: `history = [{"date": (first + relativedelta(months=i)).strftime("%Y-%m"),
"score": min(100, 50 + min(i, 25) + tx_points + immutability_points)} for i in range(age_months)]`. -/
def historyOf (first : Date) (ageM : Int) (txPts immPts : Int) : List TrendPoint :=
  (List.range ageM.toNat).map fun i =>
    { date := fmtYM (addMonthsYM first i)
      score := min 100 (50 + min (i : Int) 25 + txPts + immPts) }

/-- Line 92: the strengths list comprehension with its `if s` filter. -/
def strengthsOf (immPts txPts : Int) : List String :=
  ([if immPts == 25 then some "Strong immutability" else none,
    if txPts ≥ 20 then some "Good transaction history" else none]).filterMap id

/-- Line 93: `concerns = ["Low age" if age_points < 5 else None]` — note the
missing filter: the `None` stays in the list. -/
def concernsOf (agePts : Int) : List (Option String) :=
  [if agePts < 5 then some "Low age" else none]

/-- The raw token record the Source Resolver hands to the scoring engine:
the fields read on lines 60-78 plus the (hash, date) transaction data. -/
structure RawTokenRecord where
  name : Option String
  symbol : Option String
  totalSupply : Int
  canMint : Bool
  canMelt : Bool
  configString : String
  txHashes : List String
  txDates : List Date
deriving DecidableEq, Repr

/-- The `nftData` dictionary returned on lines 96-116, restricted to the
fields the scoring engine computes (`priceData` is an empty placeholder,
`creator` a constant). `concerns` keeps `Option` entries because line 93
does not filter out `None`. -/
structure TrustReport where
  id : String
  name : String
  verified : Bool
  tokenId : String
  collection : String
  creator : String
  transactionsCount : Nat
  transactionHistory : List (String × String)
  trustScore : Int
  confidenceLevel : Int
  history : List TrendPoint
  strengths : List String
  concerns : List (Option String)
deriving DecidableEq, Repr

/-- Lines 60-116 once `name.strip()` has succeeded: build the full report
from a record whose `name` is the present string `nm`. -/
def buildReport (uid : String) (today : Date) (r : RawTokenRecord) (nm : String) :
    TrustReport :=
  let verified := verifiedOf r.canMint r.canMelt
  let first := firstTxDate today r.txDates
  let ageM := age_months today first
  let agePts := age_points today first
  let txPts := tx_points r.txHashes.length
  let immPts := immutability_points r.canMint r.canMelt
  let score := scoreOf agePts txPts immPts
  { id := uid
    name := nm
    verified := verified
    tokenId := token_id uid
    collection := collectionOfName nm
    creator := "Unknown Creator"
    transactionsCount := r.txHashes.length
    transactionHistory := (r.txHashes.zip r.txDates).map fun hd => (hd.1, fmtYMD hd.2)
    trustScore := score
    confidenceLevel := score
    history := historyOf first ageM txPts immPts
    strengths := strengthsOf immPts txPts
    concerns := concernsOf agePts }

/-- The scoring engine, lines 60-116: when `name` is `None`, line 62
evaluates `name.strip()` and raises `AttributeError` (modelled as
`Except.error ()`); otherwise the full report is returned. -/
def fetch_hathor_nft (uid : String) (today : Date) (r : RawTokenRecord) :
    Except Unit TrustReport :=
  match r.name with
  | none => .error ()
  | some nm => .ok (buildReport uid today r nm)

/-! ### Concrete sample data used by witnesses and counterexamples -/

/-- A fixed reference instant standing for `datetime.today()`. -/
def sampleToday : Date :=
  ⟨2025, 10, 12⟩

/-- A sample list of transaction dates (unordered, as collected). -/
def sampleDates : List Date :=
  [⟨2021, 3, 4⟩, ⟨2020, 1, 1⟩, ⟨2022, 7, 30⟩]

/-- A sample raw record with a present name containing `#`. -/
def sampleRecord : RawTokenRecord :=
  ⟨some "CryptoPunks #42", some "CP", 1, false, true, "", ["h1", "h2", "h3"], sampleDates⟩

/-- A raw record whose `name` is absent (`None`). -/
def noNameRecord : RawTokenRecord :=
  ⟨none, none, 1, false, false, "", [], []⟩

/-- The §8 scenario record: mint and melt disabled, zero transactions. -/
def scenarioRecord : RawTokenRecord :=
  ⟨some "T", some "T", 1, false, false, "", [], []⟩

/-- An old fully-mutable token: age well above five months, no strengths. -/
def oldMutableRecord : RawTokenRecord :=
  ⟨some "X", none, 1, true, true, "", [], [⟨2020, 1, 1⟩]⟩

/-! ### Helper lemmas -/

lemma one_le_age_months (today first : Date) : 1 ≤ age_months today first :=
  le_max_left _ _

lemma one_le_age_points (today first : Date) : 1 ≤ age_points today first :=
  le_min (one_le_age_months today first) (by norm_num)

lemma tx_points_nonneg (n : Nat) : 0 ≤ tx_points n :=
  le_min (by positivity) (by norm_num)

lemma immutability_points_nonneg (a b : Bool) : 0 ≤ immutability_points a b := by
  revert a b; decide

lemma Date.leb_iff (a b : Date) : a.leb b = true ↔
    (a.year < b.year ∨ (a.year = b.year ∧
      (a.month < b.month ∨ (a.month = b.month ∧ a.day ≤ b.day)))) := by
  simp [Date.leb, Bool.or_eq_true, Bool.and_eq_true, decide_eq_true_eq]

lemma Date.ltb_iff (a b : Date) : a.ltb b = true ↔
    (a.year < b.year ∨ (a.year = b.year ∧
      (a.month < b.month ∨ (a.month = b.month ∧ a.day < b.day)))) := by
  simp [Date.ltb, Bool.or_eq_true, Bool.and_eq_true, decide_eq_true_eq]

lemma Date.leb_refl (a : Date) : a.leb a = true := by
  rw [Date.leb_iff]; omega

lemma Date.leb_of_ltb {a b : Date} (h : a.ltb b = true) : a.leb b = true := by
  rw [Date.ltb_iff] at h; rw [Date.leb_iff]; omega

lemma Date.leb_of_not_ltb {a b : Date} (h : a.ltb b = false) : b.leb a = true := by
  have h' : ¬ a.ltb b = true := by simp [h]
  rw [Date.ltb_iff] at h'; rw [Date.leb_iff]; omega

lemma Date.leb_trans {a b c : Date} (h1 : a.leb b = true) (h2 : b.leb c = true) :
    a.leb c = true := by
  rw [Date.leb_iff] at h1 h2 ⊢; omega

lemma minDate_mem (d : Date) (ds : List Date) : minDate d ds = d ∨ minDate d ds ∈ ds := by
  induction ds generalizing d with
  | nil => exact Or.inl rfl
  | cons a l ih =>
    have hstep : minDate d (a :: l) = minDate (if Date.ltb a d then a else d) l := rfl
    rw [hstep]
    rcases ih (if Date.ltb a d then a else d) with h | h
    · rw [h]
      split
      · exact Or.inr (List.mem_cons_self _ _)
      · exact Or.inl rfl
    · exact Or.inr (List.mem_cons_of_mem _ h)

lemma minDate_leb (d : Date) (ds : List Date) :
    (minDate d ds).leb d = true ∧ ∀ x ∈ ds, (minDate d ds).leb x = true := by
  induction ds generalizing d with
  | nil => exact ⟨Date.leb_refl d, by simp⟩
  | cons a l ih =>
    have hstep : minDate d (a :: l) = minDate (if Date.ltb a d then a else d) l := rfl
    obtain ⟨ih1, ih2⟩ := ih (if Date.ltb a d then a else d)
    have hd : (if Date.ltb a d then a else d).leb d = true := by
      split
      · exact Date.leb_of_ltb (by assumption)
      · exact Date.leb_refl d
    have ha : (if Date.ltb a d then a else d).leb a = true := by
      by_cases hc : Date.ltb a d = true
      · simp only [hc, if_pos]; exact Date.leb_refl a
      · have hc' : Date.ltb a d = false := by simpa using hc
        simp only [hc', Bool.false_eq_true, if_neg, not_false_iff]
        exact Date.leb_of_not_ltb hc'
    refine ⟨?_, ?_⟩
    · rw [hstep]; exact Date.leb_trans ih1 hd
    · intro x hx
      rcases List.mem_cons.mp hx with hx | hx
      · subst hx; rw [hstep]; exact Date.leb_trans ih1 ha
      · rw [hstep]; exact ih2 x hx

lemma firstTxDate_mem {today : Date} {ds : List Date} (h : ds ≠ []) :
    firstTxDate today ds ∈ ds := by
  match ds with
  | [] => exact absurd rfl h
  | d :: rest =>
    show minDate d rest ∈ d :: rest
    rcases minDate_mem d rest with h1 | h1
    · rw [h1]; exact List.mem_cons_self _ _
    · exact List.mem_cons_of_mem _ h1

lemma firstTxDate_leb {today : Date} {ds : List Date} (h : ds ≠ []) :
    ∀ x ∈ ds, (firstTxDate today ds).leb x = true := by
  match ds with
  | [] => exact absurd rfl h
  | d :: rest =>
    intro x hx
    obtain ⟨h1, h2⟩ := minDate_leb d rest
    rcases List.mem_cons.mp hx with hx | hx
    · subst hx; exact h1
    · exact h2 x hx

lemma buildReport_trustScore (uid : String) (today : Date) (r : RawTokenRecord)
    (nm : String) :
    (buildReport uid today r nm).trustScore =
      scoreOf (age_points today (firstTxDate today r.txDates))
        (tx_points r.txHashes.length) (immutability_points r.canMint r.canMelt) := rfl

lemma buildReport_history (uid : String) (today : Date) (r : RawTokenRecord)
    (nm : String) :
    (buildReport uid today r nm).history =
      historyOf (firstTxDate today r.txDates)
        (age_months today (firstTxDate today r.txDates))
        (tx_points r.txHashes.length) (immutability_points r.canMint r.canMelt) := rfl

lemma buildReport_concerns (uid : String) (today : Date) (r : RawTokenRecord)
    (nm : String) :
    (buildReport uid today r nm).concerns =
      concernsOf (age_points today (firstTxDate today r.txDates)) := rfl

/-! ### Claim theorems -/

/-- Claim C1: for every raw token record the scoring engine accepts, the
returned trust score equals
`min(100, 50 + age_points + tx_points + immutability_points)`, and therefore
`50 ≤ score ≤ 100` always holds. -/
theorem trust_score_formula_and_bounds (uid : String) (today : Date)
    (r : RawTokenRecord) (rep : TrustReport)
    (h : fetch_hathor_nft uid today r = Except.ok rep) :
    rep.trustScore = min 100 (50 + age_points today (firstTxDate today r.txDates)
      + tx_points r.txHashes.length + immutability_points r.canMint r.canMelt) ∧
    50 ≤ rep.trustScore ∧ rep.trustScore ≤ 100 := by
  cases hn : r.name with
  | none => simp [fetch_hathor_nft, hn] at h
  | some nm =>
    simp only [fetch_hathor_nft, hn, Except.ok.injEq] at h
    subst h
    have h1 := one_le_age_points today (firstTxDate today r.txDates)
    have h2 := tx_points_nonneg r.txHashes.length
    have h3 := immutability_points_nonneg r.canMint r.canMelt
    rw [buildReport_trustScore]
    unfold scoreOf
    refine ⟨rfl, ?_, ?_⟩ <;> omega

/-- Witness for C1 at a concrete record. -/
theorem trust_score_bounds_check :
    50 ≤ (buildReport "abc" sampleToday sampleRecord "CryptoPunks #42").trustScore ∧
    (buildReport "abc" sampleToday sampleRecord "CryptoPunks #42").trustScore ≤ 100 :=
  ⟨(trust_score_formula_and_bounds "abc" sampleToday sampleRecord
      (buildReport "abc" sampleToday sampleRecord "CryptoPunks #42") rfl).2.1,
   (trust_score_formula_and_bounds "abc" sampleToday sampleRecord
      (buildReport "abc" sampleToday sampleRecord "CryptoPunks #42") rfl).2.2⟩

/-- Claim C2 (code bug): when `name` is absent the code does NOT return a
null collection — line 62 evaluates `name.strip()` on `None` and raises
`AttributeError` (here `Except.error ()`); for present names the
`#`-splitting and trimming do behave as claimed. -/
theorem missing_name_raises :
    fetch_hathor_nft "abc" sampleToday noNameRecord = Except.error () ∧
    collectionOfName "CryptoPunks #42" = "CryptoPunks" ∧
    collectionOfName " Plain " = "Plain" := by
  refine ⟨rfl, ?_, ?_⟩ <;> decide

/-- Claim C3 (code bug): at an input whose age score is `25 ≥ 5`, the
concerns list of the produced report is `[none]` — line 93 has no filter, so
the `None` placeholder is NOT dropped, contradicting the claim. -/
theorem concerns_keeps_none_placeholder :
    age_points sampleToday (firstTxDate sampleToday oldMutableRecord.txDates) = 25 ∧
    (buildReport "abc" sampleToday oldMutableRecord "X").concerns = [none] := by
  refine ⟨by decide, ?_⟩
  rw [buildReport_concerns]
  decide

/-- Claim C4: `verified` holds iff both flags are false, and the
immutability score is 25 iff verified, 12 iff exactly one flag is set, and
0 iff both are set. -/
theorem verified_and_immutability_classification (a b : Bool) :
    (verifiedOf a b = true ↔ (a = false ∧ b = false)) ∧
    (immutability_points a b = 25 ↔ verifiedOf a b = true) ∧
    (immutability_points a b = 12 ↔ a ≠ b) ∧
    (immutability_points a b = 0 ↔ (a = true ∧ b = true)) := by
  revert a b; decide

/-- Claim C5: the transaction score is `min(2n, 25)`, monotonically
non-decreasing in the transaction count, and saturated at 25 from 13
transactions on. -/
theorem tx_points_formula_monotone_saturating (m n : Nat) :
    tx_points n = min (2 * (n : Int)) 25 ∧
    (m ≤ n → tx_points m ≤ tx_points n) ∧
    (13 ≤ n → tx_points n = 25) := by
  refine ⟨rfl, ?_, ?_⟩ <;> intro h <;> unfold tx_points <;> omega

/-- Witness for C5 at concrete transaction counts. -/
theorem tx_points_monotone_saturating_check :
    (3 ≤ 14 ∧ tx_points 3 ≤ tx_points 14) ∧ (13 ≤ 14 ∧ tx_points 14 = 25) :=
  ⟨⟨by decide, (tx_points_formula_monotone_saturating 3 14).2.1 (by decide)⟩,
   ⟨by decide, (tx_points_formula_monotone_saturating 3 14).2.2 (by decide)⟩⟩

/-- Claim C6: the first transaction date is the minimum of the date list
when non-empty and today otherwise; `age_months` is
`max(1, Δyears*12 + Δmonths)`, hence always at least 1; and the age score
is `min(age_months, 25)`. -/
theorem first_tx_date_min_and_age_formula (today : Date) (ds : List Date)
    (first : Date) :
    (ds = [] → firstTxDate today ds = today) ∧
    (ds ≠ [] → firstTxDate today ds ∈ ds ∧
      ∀ x ∈ ds, (firstTxDate today ds).leb x = true) ∧
    age_months today first =
      max 1 (((today.year : Int) - first.year) * 12 + today.month - first.month) ∧
    1 ≤ age_months today first ∧
    age_points today first = min (age_months today first) 25 := by
  refine ⟨?_, ?_, rfl, one_le_age_months today first, rfl⟩
  · intro h; subst h; rfl
  · intro h; exact ⟨firstTxDate_mem h, firstTxDate_leb h⟩

/-- Witness for C6 at a concrete date list. -/
theorem first_tx_date_age_check :
    firstTxDate sampleToday [] = sampleToday ∧
    firstTxDate sampleToday sampleDates ∈ sampleDates ∧
    1 ≤ age_months sampleToday ⟨2020, 1, 1⟩ :=
  ⟨(first_tx_date_min_and_age_formula sampleToday [] sampleToday).1 rfl,
   ((first_tx_date_min_and_age_formula sampleToday sampleDates sampleToday).2.1
      (by decide)).1,
   (first_tx_date_min_and_age_formula sampleToday sampleDates ⟨2020, 1, 1⟩).2.2.2.1⟩

/-- Claim C7: the score trend has exactly `age_months` entries (at least 1),
and entry `i` carries the `YYYY-MM` label of `firstTxDate + i` months and
the value `min(100, 50 + min(i, 25) + tx_points + immutability_points)`. -/
theorem score_trend_length_and_entries (uid : String) (today : Date)
    (r : RawTokenRecord) (nm : String) :
    (buildReport uid today r nm).history.length =
      (age_months today (firstTxDate today r.txDates)).toNat ∧
    1 ≤ (buildReport uid today r nm).history.length ∧
    ∀ i (h : i < (buildReport uid today r nm).history.length),
      (buildReport uid today r nm).history.get ⟨i, h⟩ =
        ⟨fmtYM (addMonthsYM (firstTxDate today r.txDates) i),
          min 100 (50 + min (i : Int) 25 + tx_points r.txHashes.length
            + immutability_points r.canMint r.canMelt)⟩ := by
  have hlen : (buildReport uid today r nm).history.length =
      (age_months today (firstTxDate today r.txDates)).toNat := by
    rw [buildReport_history]; simp [historyOf]
  refine ⟨hlen, ?_, ?_⟩
  · rw [hlen]
    have := one_le_age_months today (firstTxDate today r.txDates)
    omega
  · intro i h
    simp only [List.get_eq_getElem, buildReport_history, historyOf,
      List.getElem_map, List.getElem_range]

/-- Witness for C7 at a concrete record and index 0. -/
theorem score_trend_entries_check :
    (buildReport "abc" sampleToday scenarioRecord "T").history.get ⟨0, by decide⟩ =
      ⟨fmtYM (addMonthsYM (firstTxDate sampleToday scenarioRecord.txDates) 0),
        min 100 (50 + min (0 : Int) 25 + tx_points scenarioRecord.txHashes.length
          + immutability_points scenarioRecord.canMint scenarioRecord.canMelt)⟩ :=
  (score_trend_length_and_entries "abc" sampleToday scenarioRecord "T").2.2 0
    (by decide)

/-- Claim C8 counterexample: at the §8 scenario record (mint and melt
disabled, zero transactions, first transaction date = today) the score is
NOT 75 — the code computes `min(100, 50 + 1 + 0 + 25) = 76`. -/
theorem scenario_score_is_not_75 :
    (buildReport "abc" sampleToday scenarioRecord "T").trustScore ≠ 75 := by
  decide

/-- Claim C8 amended: for the scenario record the code returns score 76
(not 75), `verified = true`, strengths `["Strong immutability"]` and
concerns `["Low age"]`, for any reference date. -/
theorem scenario_mint_melt_disabled (uid : String) (today : Date) :
    (buildReport uid today scenarioRecord "T").trustScore = 76 ∧
    (buildReport uid today scenarioRecord "T").verified = true ∧
    (buildReport uid today scenarioRecord "T").strengths = ["Strong immutability"] ∧
    (buildReport uid today scenarioRecord "T").concerns = [some "Low age"] := by
  have hpts : age_points today (firstTxDate today scenarioRecord.txDates) = 1 := by
    show age_points today today = 1
    unfold age_points age_months
    omega
  refine ⟨?_, rfl, rfl, ?_⟩
  · rw [buildReport_trustScore, hpts]; decide
  · rw [buildReport_concerns, hpts]; decide

/-- Claim C9: the scoring computation is deterministic — invoked twice on
an identical record with the same fixed reference instant, it produces
identical reports. -/
theorem scoring_deterministic (uid : String) (today : Date)
    (r1 r2 : RawTokenRecord) (h : r1 = r2) :
    fetch_hathor_nft uid today r1 = fetch_hathor_nft uid today r2 := by
  rw [h]

/-- Witness for C9 at a concrete record. -/
theorem scoring_deterministic_check :
    fetch_hathor_nft "abc" sampleToday sampleRecord =
      fetch_hathor_nft "abc" sampleToday sampleRecord :=
  scoring_deterministic "abc" sampleToday sampleRecord sampleRecord rfl

/-- Claim C10: the short-id computation is total on every identifier and
equals `take 8 ++ "..." ++ drop (length − 8)` — the first and last eight
characters, overlapping when the identifier is shorter than 16 characters. -/
theorem token_id_take_takeRight (uid : String) :
    token_id uid =
      ⟨uid.data.take 8⟩ ++ "..." ++ ⟨uid.data.drop (uid.data.length - 8)⟩ := by
  unfold token_id pySlice
  have h0 : pyIdx uid.data.length 0 = 0 := by
    unfold pyIdx
    rw [if_neg (by norm_num)]
    simp
  have h8 : pyIdx uid.data.length 8 = min 8 uid.data.length := by
    unfold pyIdx
    rw [if_neg (by norm_num)]
    rfl
  have hlen : pyIdx uid.data.length (uid.data.length : Int) = uid.data.length := by
    unfold pyIdx
    rw [if_neg (by omega)]
    omega
  have hneg : pyIdx uid.data.length (-8) = uid.data.length - 8 := by
    unfold pyIdx
    rw [if_pos (by norm_num)]
    omega
  rw [h0, h8, hlen, hneg, List.drop_zero, List.take_length]
  have htake : uid.data.take (min 8 uid.data.length) = uid.data.take 8 := by
    rw [List.take_eq_take]
    omega
  rw [htake]

end HathorNFT
